import Mathlib

/-!
Shallow embedding of the Blofin scaled-exit strategy bot, from
`bots/blofin/blofin_scaled/blofin_listener_scaled.py` and
`bots/blofin/blofin_scaled/state_manager.py`.

Modelling conventions:
* numeric values are exact rationals; Python's builtin `round` (banker's
  rounding, half to even) is `pyRoundInt` / `pyRound8`;
* `None`-able Python values are `Option`s, and Python truthiness is made
  explicit (`truthyQ` for floats, `truthyS` for strings);
* every network call is modelled by an environment record carrying the
  response the code would receive, and the requests the code issues are
  collected into an `Action` trace;
* the per-cycle body of `monitor_scaled_positions` is modelled as a pure
  function over the in-memory positions map (an association list, mirroring
  the insertion-ordered Python dict).
-/

namespace BlofinScaled

/-- Python's builtin one-argument `round`: round to the nearest integer,
halves to the even neighbour. -/
def pyRoundInt (x : ℚ) : ℤ :=
  if x - ⌊x⌋ < 1/2 then ⌊x⌋
  else if 1/2 < x - ⌊x⌋ then ⌊x⌋ + 1
  else if ⌊x⌋ % 2 = 0 then ⌊x⌋ else ⌊x⌋ + 1

/-- Python's `round(y, 8)`: round to eight decimal places, halves to even. -/
def pyRound8 (y : ℚ) : ℚ := (pyRoundInt (y * 10 ^ 8) : ℚ) / 10 ^ 8

/-- Truthiness of an optional float: Python treats `None` and `0.0` as falsy. -/
def truthyQ : Option ℚ → Bool
  | none => false
  | some x => decide (x ≠ 0)

/-- Truthiness of an optional string: Python treats `None` and `""` as falsy. -/
def truthyS : Option String → Bool
  | none => false
  | some s => decide (s ≠ "")

/-- `round_size_to_lot` (blofin_listener_scaled.py, lines 209-213):
`if not lot_size or lot_size == 0: return size` (for a float/None argument,
falsy is exactly `None` or `0`), otherwise
`round(round(size / lot_size) * lot_size, 8)`. -/
def round_size_to_lot (size : ℚ) (lot_size : Option ℚ) : ℚ :=
  match lot_size with
  | none => size
  | some l => if l = 0 then size else pyRound8 ((pyRoundInt (size / l) : ℚ) * l)

/-- The `ScaledPosition` dataclass (lines 94-134).  `close_check` models the
dynamic `_close_check` attribute set by `monitor_scaled_positions`
(`getattr(pos, '_close_check', 0)` defaults it to 0); it is not persisted. -/
structure ScaledPosition where
  symbol : String
  side : String
  original_size : ℚ
  remaining_size : ℚ
  entry_price : ℚ
  tp1_price : Option ℚ
  tp2_price : Option ℚ
  tp3_price : Option ℚ
  sl_price : Option ℚ
  leverage : ℤ
  tp1_hit : Bool := false
  tp2_hit : Bool := false
  tp3_hit : Bool := false
  sl_hit : Bool := false
  tp1_order_id : Option String := none
  tp2_order_id : Option String := none
  tp3_order_id : Option String := none
  sl_order_id : Option String := none
  unrealized_pnl : ℚ := 0
  mark_price : ℚ := 0
  close_check : Nat := 0
deriving DecidableEq, Repr

/-- The `position_side` property: `"long" if self.side == "buy" else "short"`. -/
def ScaledPosition.position_side (p : ScaledPosition) : String :=
  if p.side = "buy" then "long" else "short"

/-- The `close_side` property: `"sell" if self.side == "buy" else "buy"`. -/
def ScaledPosition.close_side (p : ScaledPosition) : String :=
  if p.side = "buy" then "sell" else "buy"

/-- The `is_closed` property (lines 132-134):
`self.remaining_size <= 0 or self.sl_hit or self.tp3_hit`. -/
def ScaledPosition.is_closed (p : ScaledPosition) : Bool :=
  decide (p.remaining_size ≤ 0) || p.sl_hit || p.tp3_hit

/-- The `data` field of a TPSL-order API response: the code handles both a
list of records and a single dict (`isinstance` branches). -/
inductive RespData where
  | dlist (entries : List (Option String))
  | ddict (tpslId : Option String)
deriving DecidableEq, Repr

/-- A `create_tpsl_order` response: either falsy (`None` / empty dict, the
`if res and ...` guard fails) or a dict with a `code` and `data`. -/
inductive Resp where
  | noResp
  | resp (code : String) (data : RespData)
deriving DecidableEq, Repr

/-- The order-id extraction pattern repeated at lines 336-341, 351-356,
389-394, 403-408: on a truthy response with code `"0"`, take `tpslId` from
`data[0]` when `data` is a non-empty list, or from the dict when it is a
dict (an empty-list `data` matches neither branch); otherwise the recorded
id is left unchanged. -/
def updateOrderId (old : Option String) (r : Resp) : Option String :=
  match r with
  | .noResp => old
  | .resp code data =>
      if code = "0" then
        match data with
        | .dlist [] => old
        | .dlist (h :: _) => h
        | .ddict i => i
      else old

/-- Whether a response passes the `if res and res.get('code') == "0"` guard. -/
def respOk : Resp → Bool
  | .noResp => false
  | .resp code _ => decide (code = "0")

/-- The body assembled by `create_tpsl_order` (lines 218-242): trigger prices
are included only when truthy (`if tp_price:` / `if sl_price:`). -/
structure TpslRequest where
  instId : String
  posSide : String
  side : String
  size : ℚ
  tpTriggerPrice : Option ℚ
  slTriggerPrice : Option ℚ
deriving DecidableEq, Repr

/-- Builds the request `create_tpsl_order` sends for the given arguments. -/
def mkTpslRequest (symbol posSide closeSide : String) (size : ℚ)
    (tp sl : Option ℚ) : TpslRequest :=
  { instId := symbol, posSide := posSide, side := closeSide, size := size,
    tpTriggerPrice := if truthyQ tp then tp else none,
    slTriggerPrice := if truthyQ sl then sl else none }

/-- An outward-visible effect of the state machine: a cancel request, a
TPSL placement request, or a `save_positions()` write-through. -/
inductive Action where
  | cancelTpsl (symbol : String) (tpslId : String)
  | createTpsl (req : TpslRequest)
  | persist
deriving DecidableEq, Repr

/-- The `if pos.sl_order_id: await cancel_tpsl_by_id(pos.symbol, pos.sl_order_id)`
pattern (lines 329-330, 382-383): the cancel request reaches the exchange only
when the recorded id is truthy (`cancel_tpsl_by_id` itself also returns early
on a falsy id). -/
def cancelSlActs (p : ScaledPosition) : List Action :=
  match p.sl_order_id with
  | none => []
  | some i => if i = "" then [] else [Action.cancelTpsl p.symbol i]

/-- Responses supplied by the exchange to one TP-hit handler: the lot size
returned by `get_lot_size` and the responses to the replacement-SL and
next-TP `create_tpsl_order` calls. -/
structure TransEnv where
  lot_size : ℚ
  sl_resp : Resp
  tp_resp : Resp
deriving DecidableEq, Repr

/-- `handle_tp1_hit` (lines 312-362): set `tp1_hit`, recompute
`remaining_size` as `round_size_to_lot(original_size * 0.50, lot_size)`,
cancel the recorded SL, place a replacement SL at the unchanged `sl_price`
sized at `remaining_size`, place a TP2 order sized
`round_size_to_lot(remaining_size * 0.50, lot_size)` at `tp2_price` when
`tp2_price` is truthy, and persist. -/
def handle_tp1_hit (env : TransEnv) (pos : ScaledPosition) :
    ScaledPosition × List Action :=
  let pos1 : ScaledPosition :=
    { pos with tp1_hit := true,
               remaining_size :=
                 round_size_to_lot (pos.original_size * (1/2)) (some env.lot_size) }
  let acts0 := cancelSlActs pos1
  let slReq := mkTpslRequest pos1.symbol pos1.position_side pos1.close_side
      pos1.remaining_size none pos1.sl_price
  let pos2 := { pos1 with sl_order_id := updateOrderId pos1.sl_order_id env.sl_resp }
  let tp2_size := round_size_to_lot (pos2.remaining_size * (1/2)) (some env.lot_size)
  if truthyQ pos2.tp2_price then
    ({ pos2 with tp2_order_id := updateOrderId pos2.tp2_order_id env.tp_resp },
      acts0 ++ [Action.createTpsl slReq,
        Action.createTpsl (mkTpslRequest pos2.symbol pos2.position_side
          pos2.close_side tp2_size pos2.tp2_price none),
        Action.persist])
  else
    (pos2, acts0 ++ [Action.createTpsl slReq, Action.persist])

/-- `handle_tp2_hit` (lines 365-414): set `tp2_hit`, recompute
`remaining_size` as `round_size_to_lot(original_size * 0.25, lot_size)`,
cancel the recorded SL, place a replacement SL at `entry_price` (breakeven)
sized at `remaining_size`, place a TP3 order sized at `remaining_size` at
`tp3_price` when `tp3_price` is truthy, and persist. -/
def handle_tp2_hit (env : TransEnv) (pos : ScaledPosition) :
    ScaledPosition × List Action :=
  let pos1 : ScaledPosition :=
    { pos with tp2_hit := true,
               remaining_size :=
                 round_size_to_lot (pos.original_size * (1/4)) (some env.lot_size) }
  let acts0 := cancelSlActs pos1
  let slReq := mkTpslRequest pos1.symbol pos1.position_side pos1.close_side
      pos1.remaining_size none (some pos1.entry_price)
  let pos2 := { pos1 with sl_order_id := updateOrderId pos1.sl_order_id env.sl_resp }
  if truthyQ pos2.tp3_price then
    ({ pos2 with tp3_order_id := updateOrderId pos2.tp3_order_id env.tp_resp },
      acts0 ++ [Action.createTpsl slReq,
        Action.createTpsl (mkTpslRequest pos2.symbol pos2.position_side
          pos2.close_side pos2.remaining_size pos2.tp3_price none),
        Action.persist])
  else
    (pos2, acts0 ++ [Action.createTpsl slReq, Action.persist])

/-- `handle_tp3_hit` (lines 417-428): set `tp3_hit`, zero `remaining_size`,
persist. -/
def handle_tp3_hit (pos : ScaledPosition) : ScaledPosition × List Action :=
  ({ pos with tp3_hit := true, remaining_size := 0 }, [Action.persist])

/-- `handle_sl_hit` (lines 431-448): set `sl_hit`, zero `remaining_size`,
persist. -/
def handle_sl_hit (pos : ScaledPosition) : ScaledPosition × List Action :=
  ({ pos with sl_hit := true, remaining_size := 0 }, [Action.persist])

/-- One record of the conditional-order history returned by
`/api/v1/trade/orders-tpsl-history`.  `createTime` is the trigger timestamp
the exchange reports; the monitoring code never reads it. -/
structure HistEntry where
  tpslId : Option String
  state : String
  createTime : Nat
deriving DecidableEq, Repr

/-- Environments for the TP1 and TP2 handlers, should the history scan
invoke them during one pass over a position. -/
structure ScanEnv where
  tp1env : TransEnv
  tp2env : TransEnv
deriving DecidableEq, Repr

/-- One iteration of the `for order in history_data` loop
(lines 535-552): skip entries whose state is not `filled`/`triggered`,
then run the `elif` chain matching the entry id against the recorded
TP1/TP2/TP3/SL order ids, each guarded by its still-unset hit flag; the
TP3 and SL matches also mark the symbol for removal.  The accumulated
state is (position, marked-for-removal, emitted actions). -/
def stepHistEntry (env : ScanEnv) (st : ScaledPosition × Bool × List Action)
    (e : HistEntry) : ScaledPosition × Bool × List Action :=
  if e.state ≠ "filled" ∧ e.state ≠ "triggered" then st
  else if e.tpslId = st.1.tp1_order_id ∧ st.1.tp1_hit = false then
    ((handle_tp1_hit env.tp1env st.1).1, st.2.1,
      st.2.2 ++ (handle_tp1_hit env.tp1env st.1).2)
  else if e.tpslId = st.1.tp2_order_id ∧ st.1.tp2_hit = false then
    ((handle_tp2_hit env.tp2env st.1).1, st.2.1,
      st.2.2 ++ (handle_tp2_hit env.tp2env st.1).2)
  else if e.tpslId = st.1.tp3_order_id ∧ st.1.tp3_hit = false then
    ((handle_tp3_hit st.1).1, true, st.2.2 ++ (handle_tp3_hit st.1).2)
  else if e.tpslId = st.1.sl_order_id ∧ st.1.sl_hit = false then
    ((handle_sl_hit st.1).1, true, st.2.2 ++ (handle_sl_hit st.1).2)
  else st

/-- The whole history scan for one position: the entries of `history_data`
are folded in the order the fetched list reports them (the code does not
sort them by time). -/
def processHistory (env : ScanEnv) (pos : ScaledPosition)
    (hist : List HistEntry) : ScaledPosition × Bool × List Action :=
  hist.foldl (stepHistEntry env) (pos, false, [])

/-- The classifier result of `BlofinAPI.get_position_close_reason`. -/
inductive CloseReason where
  | TP
  | SL
  | other
deriving DecidableEq, Repr

/-- Everything the exchange tells the monitor about one position during one
cycle: whether the history fetch raises, the history list (or `none` for a
falsy / non-`"0"` response), the handler environments, the open-position
query result, whether pending TPSL orders exist, and the close-reason
classification. -/
structure PosEnv where
  histRaises : Bool
  tpslHistory : Option (List HistEntry)
  scan : ScanEnv
  openPosition : Option (ℚ × ℚ)
  pendingTpsl : Bool
  closeReason : CloseReason
deriving DecidableEq, Repr

/-- Processing of one not-yet-closed position inside a cycle
(lines 525-584), yielding the updated position and whether the symbol was
marked for removal: run the history scan; if an open position is reported,
refresh telemetry and stop (`continue`); otherwise, if pending TPSL orders
exist, stop; otherwise increment the close-confirmation counter
(`_close_check`) — which is never reset — and once it reaches 2, classify
the close reason, run the matching terminal handler, and mark the symbol
for removal. -/
def processPosition (env : PosEnv) (pos : ScaledPosition) :
    ScaledPosition × Bool :=
  let scanned :=
    match env.tpslHistory with
    | some hist => processHistory env.scan pos hist
    | none => (pos, false, [])
  let pos1 := scanned.1
  let removed := scanned.2.1
  match env.openPosition with
  | some um => ({ pos1 with unrealized_pnl := um.1, mark_price := um.2 }, removed)
  | none =>
      if env.pendingTpsl then (pos1, removed)
      else
        let cc := pos1.close_check + 1
        let pos2 := { pos1 with close_check := cc }
        if 2 ≤ cc then
          match env.closeReason with
          | .SL => ((handle_sl_hit pos2).1, true)
          | .TP => ((handle_tp3_hit pos2).1, true)
          | .other => (pos2, true)
        else (pos2, removed)

/-- The scaled-positions section of one clean (exception-free) monitor cycle
(lines 517-588) over the insertion-ordered positions map: positions already
`is_closed` are marked for removal and skipped (`continue`), the rest are
processed, and finally every marked symbol is deleted from the map. -/
def monitorCycle (envf : String → PosEnv)
    (m : List (String × ScaledPosition)) : List (String × ScaledPosition) :=
  (m.map fun sp =>
      if sp.2.is_closed then (sp.1, sp.2, true)
      else
        let pr := processPosition (envf sp.1) sp.2
        (sp.1, pr.1, pr.2)).filterMap
    fun t => if t.2.2 then none else some (t.1, t.2.1)

/-- One monitor cycle including the `try`/`except` wrapping of the whole
`while True` body (lines 459-596): positions are processed in map order;
when a position's processing raises (modelled at its first network call,
the history fetch), the `for` loop aborts — the remaining positions are not
processed this cycle, the `del` sweep over `positions_to_remove` never
runs, in-place mutations already made are kept — the exception is caught
and logged, and the loop sleeps 10 seconds instead of the clean-cycle 5
before retrying.  Returns (map after the cycle, whether an exception was
caught, seconds slept).  The accumulator carries already-processed entries
(newest first) with their removal marks. -/
def runCycleGo (envf : String → PosEnv) :
    List (String × ScaledPosition) → List (String × ScaledPosition × Bool) →
    List (String × ScaledPosition) × Bool × Nat
  | [], acc =>
      (acc.reverse.filterMap fun t => if t.2.2 then none else some (t.1, t.2.1),
        false, 5)
  | (s, p) :: rest, acc =>
      if p.is_closed then runCycleGo envf rest ((s, p, true) :: acc)
      else if (envf s).histRaises then
        ((acc.reverse.map fun t => (t.1, t.2.1)) ++ (s, p) :: rest, true, 10)
      else
        let pr := processPosition (envf s) p
        runCycleGo envf rest ((s, pr.1, pr.2) :: acc)

/-- One monitor cycle with exception semantics, starting from an empty
accumulator. -/
def runCycleScaled (envf : String → PosEnv)
    (m : List (String × ScaledPosition)) :
    List (String × ScaledPosition) × Bool × Nat :=
  runCycleGo envf m []

/-- One symbol's record as written by `save_state`
(state_manager.py, lines 22-43): every `ScaledPosition` field including the
live telemetry, but not the dynamic `_close_check` attribute. -/
structure SavedEntry where
  symbol : String
  side : String
  original_size : ℚ
  remaining_size : ℚ
  entry_price : ℚ
  tp1_price : Option ℚ
  tp2_price : Option ℚ
  tp3_price : Option ℚ
  sl_price : Option ℚ
  leverage : ℤ
  tp1_hit : Bool
  tp2_hit : Bool
  tp3_hit : Bool
  sl_hit : Bool
  tp1_order_id : Option String
  tp2_order_id : Option String
  tp3_order_id : Option String
  sl_order_id : Option String
  unrealized_pnl : ℚ
  mark_price : ℚ
deriving DecidableEq, Repr

/-- The snapshot record `save_state` writes for one position. -/
def saveEntry (p : ScaledPosition) : SavedEntry :=
  { symbol := p.symbol, side := p.side,
    original_size := p.original_size, remaining_size := p.remaining_size,
    entry_price := p.entry_price,
    tp1_price := p.tp1_price, tp2_price := p.tp2_price,
    tp3_price := p.tp3_price, sl_price := p.sl_price,
    leverage := p.leverage,
    tp1_hit := p.tp1_hit, tp2_hit := p.tp2_hit,
    tp3_hit := p.tp3_hit, sl_hit := p.sl_hit,
    tp1_order_id := p.tp1_order_id, tp2_order_id := p.tp2_order_id,
    tp3_order_id := p.tp3_order_id, sl_order_id := p.sl_order_id,
    unrealized_pnl := p.unrealized_pnl, mark_price := p.mark_price }

/-- The `ScaledPosition(...)` reconstruction in
`restore_positions_from_state` (blofin_listener_scaled.py, lines 155-174):
identity, sizes, prices and leverage are read as required keys, flags and
order ids via `data.get` with defaults; the live telemetry fields are not
read back (they keep the dataclass defaults `0.0`), and `_close_check`
starts absent (0). -/
def restoreEntry (d : SavedEntry) : ScaledPosition :=
  { symbol := d.symbol, side := d.side,
    original_size := d.original_size, remaining_size := d.remaining_size,
    entry_price := d.entry_price,
    tp1_price := d.tp1_price, tp2_price := d.tp2_price,
    tp3_price := d.tp3_price, sl_price := d.sl_price,
    leverage := d.leverage,
    tp1_hit := d.tp1_hit, tp2_hit := d.tp2_hit,
    tp3_hit := d.tp3_hit, sl_hit := d.sl_hit,
    tp1_order_id := d.tp1_order_id, tp2_order_id := d.tp2_order_id,
    tp3_order_id := d.tp3_order_id, sl_order_id := d.sl_order_id }

/-- Lines 176-178: the reconstructed position joins the live working set
only when it is not closed. -/
def restoreKept (d : SavedEntry) : Option ScaledPosition :=
  let p := restoreEntry d
  if p.is_closed then none else some p

/-- The initial TP1 sizing of `setup_scaled_tpsl` (lines 267-274):
`tp1_size = round_size_to_lot(original_size * 0.50, lot_size)`, and if that
falls below one lot the position is too small to split, so 100% is used. -/
def setup_tp1_size (orig lot : ℚ) : ℚ :=
  let s := round_size_to_lot (orig * (1/2)) (some lot)
  if s < lot then orig else s

/-! ### Arithmetic facts about the rounding helpers -/

lemma pyRoundInt_le_floor_add_one (x : ℚ) : pyRoundInt x ≤ ⌊x⌋ + 1 := by
  unfold pyRoundInt
  split_ifs <;> omega

lemma floor_le_pyRoundInt (x : ℚ) : ⌊x⌋ ≤ pyRoundInt x := by
  unfold pyRoundInt
  split_ifs <;> omega

lemma pyRoundInt_mono {x y : ℚ} (h : x ≤ y) : pyRoundInt x ≤ pyRoundInt y := by
  have hf : ⌊x⌋ ≤ ⌊y⌋ := Int.floor_le_floor h
  rcases eq_or_lt_of_le hf with heq | hlt
  · have h1 : x - (⌊x⌋ : ℚ) ≤ y - (⌊y⌋ : ℚ) := by
      rw [← heq]
      linarith
    unfold pyRoundInt
    split_ifs <;> first | omega | (exfalso; linarith)
  · calc pyRoundInt x ≤ ⌊x⌋ + 1 := pyRoundInt_le_floor_add_one x
      _ ≤ ⌊y⌋ := by omega
      _ ≤ pyRoundInt y := floor_le_pyRoundInt y

lemma pyRoundInt_nonneg {x : ℚ} (hx : 0 ≤ x) : 0 ≤ pyRoundInt x := by
  have h := floor_le_pyRoundInt x
  have h2 : (0 : ℤ) ≤ ⌊x⌋ := Int.floor_nonneg.mpr hx
  omega

lemma pyRoundInt_le_two_mul {y : ℚ} (hy : 0 ≤ y) :
    (pyRoundInt y : ℚ) ≤ 2 * y := by
  have h1 : (⌊y⌋ : ℚ) ≤ y := Int.floor_le y
  have h2 : (0 : ℚ) ≤ (⌊y⌋ : ℚ) := by
    exact_mod_cast Int.floor_nonneg.mpr hy
  unfold pyRoundInt
  split_ifs <;> push_cast <;> linarith

lemma pyRoundInt_intCast (m : ℤ) : pyRoundInt (m : ℚ) = m := by
  unfold pyRoundInt
  rw [Int.floor_intCast]
  norm_num

lemma pyRound8_int_div (m : ℤ) :
    pyRound8 ((m : ℚ) / 10 ^ 8) = (m : ℚ) / 10 ^ 8 := by
  unfold pyRound8
  rw [div_mul_cancel₀ _ (by norm_num : ((10 : ℚ) ^ 8) ≠ 0), pyRoundInt_intCast]

/-- On a lot size that is a positive integer multiple of `10 ^ (-8)`,
`round_size_to_lot` lands on the `10 ^ (-8)` grid, so the final
`round(..., 8)` is the identity. -/
lemma round_size_to_lot_grid (s : ℚ) (k : ℕ) (hk : k ≠ 0) :
    round_size_to_lot s (some ((k : ℚ) / 10 ^ 8)) =
      ((pyRoundInt (s / ((k : ℚ) / 10 ^ 8)) * (k : ℤ) : ℤ) : ℚ) / 10 ^ 8 := by
  have hl : ((k : ℚ) / 10 ^ 8) ≠ 0 := by
    have : (k : ℚ) ≠ 0 := Nat.cast_ne_zero.mpr hk
    positivity
  simp only [round_size_to_lot]
  rw [if_neg hl]
  have harg : (pyRoundInt (s / ((k : ℚ) / 10 ^ 8)) : ℚ) * ((k : ℚ) / 10 ^ 8) =
      ((pyRoundInt (s / ((k : ℚ) / 10 ^ 8)) * (k : ℤ) : ℤ) : ℚ) / 10 ^ 8 := by
    push_cast
    ring
  rw [harg, pyRound8_int_div]

/-- `round_size_to_lot` on a grid lot size, as a rational multiple of the lot. -/
lemma round_size_grid_eq_mul (s : ℚ) (k : ℕ) (hk : k ≠ 0) :
    round_size_to_lot s (some ((k : ℚ) / 10 ^ 8)) =
      (pyRoundInt (s / ((k : ℚ) / 10 ^ 8)) : ℚ) * ((k : ℚ) / 10 ^ 8) := by
  rw [round_size_to_lot_grid s k hk]
  push_cast
  ring

/-- A failed replacement (`None` response or code ≠ "0") leaves the recorded
order id untouched. -/
lemma updateOrderId_of_not_ok {old : Option String} {r : Resp}
    (h : respOk r = false) : updateOrderId old r = old := by
  cases r with
  | noResp => rfl
  | resp code data =>
      simp only [respOk, decide_eq_false_iff_not] at h
      simp [updateOrderId, h]

/-! ### Field bookkeeping for the TP-hit handlers -/

@[simp] lemma handle_tp1_hit_remaining (e : TransEnv) (p : ScaledPosition) :
    (handle_tp1_hit e p).1.remaining_size =
      round_size_to_lot (p.original_size * (1/2)) (some e.lot_size) := by
  simp only [handle_tp1_hit]
  split <;> rfl

@[simp] lemma handle_tp1_hit_original (e : TransEnv) (p : ScaledPosition) :
    (handle_tp1_hit e p).1.original_size = p.original_size := by
  simp only [handle_tp1_hit]
  split <;> rfl

@[simp] lemma handle_tp1_hit_tp1_hit (e : TransEnv) (p : ScaledPosition) :
    (handle_tp1_hit e p).1.tp1_hit = true := by
  simp only [handle_tp1_hit]
  split <;> rfl

@[simp] lemma handle_tp1_hit_tp2_hit (e : TransEnv) (p : ScaledPosition) :
    (handle_tp1_hit e p).1.tp2_hit = p.tp2_hit := by
  simp only [handle_tp1_hit]
  split <;> rfl

@[simp] lemma handle_tp1_hit_tp3_hit (e : TransEnv) (p : ScaledPosition) :
    (handle_tp1_hit e p).1.tp3_hit = p.tp3_hit := by
  simp only [handle_tp1_hit]
  split <;> rfl

@[simp] lemma handle_tp1_hit_sl_hit (e : TransEnv) (p : ScaledPosition) :
    (handle_tp1_hit e p).1.sl_hit = p.sl_hit := by
  simp only [handle_tp1_hit]
  split <;> rfl

@[simp] lemma handle_tp1_hit_tp1_order_id (e : TransEnv) (p : ScaledPosition) :
    (handle_tp1_hit e p).1.tp1_order_id = p.tp1_order_id := by
  simp only [handle_tp1_hit]
  split <;> rfl

@[simp] lemma handle_tp1_hit_tp3_order_id (e : TransEnv) (p : ScaledPosition) :
    (handle_tp1_hit e p).1.tp3_order_id = p.tp3_order_id := by
  simp only [handle_tp1_hit]
  split <;> rfl

@[simp] lemma handle_tp1_hit_sl_order_id (e : TransEnv) (p : ScaledPosition) :
    (handle_tp1_hit e p).1.sl_order_id = updateOrderId p.sl_order_id e.sl_resp := by
  simp only [handle_tp1_hit]
  split <;> rfl

@[simp] lemma handle_tp1_hit_tp2_order_id (e : TransEnv) (p : ScaledPosition) :
    (handle_tp1_hit e p).1.tp2_order_id =
      if truthyQ p.tp2_price then updateOrderId p.tp2_order_id e.tp_resp
      else p.tp2_order_id := by
  simp only [handle_tp1_hit]
  split <;> simp_all

@[simp] lemma handle_tp2_hit_remaining (e : TransEnv) (p : ScaledPosition) :
    (handle_tp2_hit e p).1.remaining_size =
      round_size_to_lot (p.original_size * (1/4)) (some e.lot_size) := by
  simp only [handle_tp2_hit]
  split <;> rfl

@[simp] lemma handle_tp2_hit_original (e : TransEnv) (p : ScaledPosition) :
    (handle_tp2_hit e p).1.original_size = p.original_size := by
  simp only [handle_tp2_hit]
  split <;> rfl

@[simp] lemma handle_tp2_hit_tp1_hit (e : TransEnv) (p : ScaledPosition) :
    (handle_tp2_hit e p).1.tp1_hit = p.tp1_hit := by
  simp only [handle_tp2_hit]
  split <;> rfl

@[simp] lemma handle_tp2_hit_tp2_hit (e : TransEnv) (p : ScaledPosition) :
    (handle_tp2_hit e p).1.tp2_hit = true := by
  simp only [handle_tp2_hit]
  split <;> rfl

@[simp] lemma handle_tp2_hit_tp3_hit (e : TransEnv) (p : ScaledPosition) :
    (handle_tp2_hit e p).1.tp3_hit = p.tp3_hit := by
  simp only [handle_tp2_hit]
  split <;> rfl

@[simp] lemma handle_tp2_hit_sl_hit (e : TransEnv) (p : ScaledPosition) :
    (handle_tp2_hit e p).1.sl_hit = p.sl_hit := by
  simp only [handle_tp2_hit]
  split <;> rfl

@[simp] lemma handle_tp2_hit_tp1_order_id (e : TransEnv) (p : ScaledPosition) :
    (handle_tp2_hit e p).1.tp1_order_id = p.tp1_order_id := by
  simp only [handle_tp2_hit]
  split <;> rfl

@[simp] lemma handle_tp2_hit_tp2_order_id (e : TransEnv) (p : ScaledPosition) :
    (handle_tp2_hit e p).1.tp2_order_id = p.tp2_order_id := by
  simp only [handle_tp2_hit]
  split <;> rfl

@[simp] lemma handle_tp2_hit_sl_order_id (e : TransEnv) (p : ScaledPosition) :
    (handle_tp2_hit e p).1.sl_order_id = updateOrderId p.sl_order_id e.sl_resp := by
  simp only [handle_tp2_hit]
  split <;> rfl

@[simp] lemma handle_tp2_hit_tp3_order_id (e : TransEnv) (p : ScaledPosition) :
    (handle_tp2_hit e p).1.tp3_order_id =
      if truthyQ p.tp3_price then updateOrderId p.tp3_order_id e.tp_resp
      else p.tp3_order_id := by
  simp only [handle_tp2_hit]
  split <;> simp_all

/-! ### Claim C10 -/

/-- Claim C10: `round_size_to_lot` is total: for every size, when `lot_size`
is `0`, `None`, or otherwise falsy it returns `size` unchanged (the division
by `lot_size` is guarded and never executed), and for every non-zero
`lot_size` it returns `round(round(size / lot_size) * lot_size, 8)` without
raising (the Lean model is a total function). -/
theorem claim_C10 (size : ℚ) :
    round_size_to_lot size none = size ∧
    round_size_to_lot size (some 0) = size ∧
    ∀ l : ℚ, l ≠ 0 →
      round_size_to_lot size (some l) =
        pyRound8 ((pyRoundInt (size / l) : ℚ) * l) := by
  refine ⟨rfl, by simp [round_size_to_lot], fun l hl => ?_⟩
  simp [round_size_to_lot, hl]

/-- Witness for C10 at `size = 7`, `lot_size = 2`. -/
theorem claim_C10_witness :
    round_size_to_lot 7 none = 7 ∧ round_size_to_lot 7 (some 0) = 7 ∧
    ((2 : ℚ) ≠ 0 ∧
      round_size_to_lot 7 (some 2) =
        pyRound8 ((pyRoundInt ((7 : ℚ) / 2) : ℚ) * 2)) :=
  ⟨(claim_C10 7).1, (claim_C10 7).2.1, by norm_num,
    (claim_C10 7).2.2 2 (by norm_num)⟩

/-! ### Claim C9 -/

/-- Claim C9: when the replacement-SL placement of the TP1 or TP2 transition
fails (no response or response code ≠ "0"), `sl_order_id` is left unchanged,
still holding the id of the just-cancelled SL order; and a later history
entry in terminal state carrying that id (and matching no earlier branch of
the `elif` chain) triggers the SL transition. -/
theorem claim_C9 (p : ScaledPosition) (e : TransEnv)
    (hfail : respOk e.sl_resp = false) :
    ((handle_tp1_hit e p).1.sl_order_id = p.sl_order_id ∧
     (handle_tp2_hit e p).1.sl_order_id = p.sl_order_id) ∧
    (∀ (env : ScanEnv) (q : ScaledPosition) (ent : HistEntry),
      ent.state = "filled" → ent.tpslId = q.sl_order_id → q.sl_hit = false →
      ¬(ent.tpslId = q.tp1_order_id ∧ q.tp1_hit = false) →
      ¬(ent.tpslId = q.tp2_order_id ∧ q.tp2_hit = false) →
      ¬(ent.tpslId = q.tp3_order_id ∧ q.tp3_hit = false) →
      (stepHistEntry env (q, false, []) ent).1.sl_hit = true ∧
      (stepHistEntry env (q, false, []) ent).2.1 = true) := by
  constructor
  · simp [handle_tp1_hit_sl_order_id, handle_tp2_hit_sl_order_id,
      updateOrderId_of_not_ok hfail]
  · intro env q ent hstate hid hsl h1 h2 h3
    rw [hid] at h1 h2 h3
    simp [stepHistEntry, hstate, hid, hsl, h1, h2, h3, handle_sl_hit]

/-- Concrete position for the C9 witness: TP1 pending, SL recorded. -/
def c9p : ScaledPosition :=
  { symbol := "SOL-USDT", side := "buy", original_size := 100,
    remaining_size := 100, entry_price := 10, tp1_price := some 11,
    tp2_price := some 12, tp3_price := some 13, sl_price := some 9,
    leverage := 10, tp1_order_id := some "t1", sl_order_id := some "s1" }

/-- A rejected replacement-SL response (code "1") for the C9 witness. -/
def c9e : TransEnv :=
  { lot_size := 1, sl_resp := Resp.resp "1" (RespData.ddict none),
    tp_resp := Resp.noResp }

/-- History entry reporting the stale SL id as filled, for the C9 witness. -/
def c9ent : HistEntry := { tpslId := some "s1", state := "filled", createTime := 5 }

/-- Scan environment for the C9 witness. -/
def c9scan : ScanEnv :=
  { tp1env := { lot_size := 1, sl_resp := Resp.noResp, tp_resp := Resp.noResp },
    tp2env := { lot_size := 1, sl_resp := Resp.noResp, tp_resp := Resp.noResp } }

/-- Witness for C9 at a concrete position, failed response and history entry. -/
theorem claim_C9_witness :
    respOk c9e.sl_resp = false ∧
    ((handle_tp1_hit c9e c9p).1.sl_order_id = c9p.sl_order_id ∧
     (handle_tp2_hit c9e c9p).1.sl_order_id = c9p.sl_order_id) ∧
    ((stepHistEntry c9scan (c9p, false, []) c9ent).1.sl_hit = true ∧
     (stepHistEntry c9scan (c9p, false, []) c9ent).2.1 = true) := by
  have hfail : respOk c9e.sl_resp = false := by simp [c9e, respOk]
  have h := claim_C9 c9p c9e hfail
  refine ⟨hfail, h.1, h.2 c9scan c9p c9ent rfl rfl rfl ?_ ?_ ?_⟩
  · simp [c9p, c9ent]
  · simp [c9p, c9ent]
  · simp [c9p, c9ent]

/-! ### Claim C5 -/

/-- Claim C5: for every `ScaledPosition` that is not closed, saving it via
the `save_state` record and reconstructing it as
`restore_positions_from_state` does yields a position that is kept in the
working set and whose hit flags, order ids and size fields are identical to
the original's (live telemetry excluded). -/
theorem claim_C5 (p : ScaledPosition) (h : p.is_closed = false) :
    restoreKept (saveEntry p) = some (restoreEntry (saveEntry p)) ∧
    (restoreEntry (saveEntry p)).tp1_hit = p.tp1_hit ∧
    (restoreEntry (saveEntry p)).tp2_hit = p.tp2_hit ∧
    (restoreEntry (saveEntry p)).tp3_hit = p.tp3_hit ∧
    (restoreEntry (saveEntry p)).sl_hit = p.sl_hit ∧
    (restoreEntry (saveEntry p)).tp1_order_id = p.tp1_order_id ∧
    (restoreEntry (saveEntry p)).tp2_order_id = p.tp2_order_id ∧
    (restoreEntry (saveEntry p)).tp3_order_id = p.tp3_order_id ∧
    (restoreEntry (saveEntry p)).sl_order_id = p.sl_order_id ∧
    (restoreEntry (saveEntry p)).original_size = p.original_size ∧
    (restoreEntry (saveEntry p)).remaining_size = p.remaining_size := by
  have hc : (restoreEntry (saveEntry p)).is_closed = p.is_closed := rfl
  refine ⟨?_, rfl, rfl, rfl, rfl, rfl, rfl, rfl, rfl, rfl, rfl⟩
  simp [restoreKept, hc, h]

/-- Concrete open position for the C5 witness (mid-lifecycle: TP1 hit). -/
def c5p : ScaledPosition :=
  { symbol := "BTC-USDT", side := "sell", original_size := 100,
    remaining_size := 50, entry_price := 95000, tp1_price := some 94000,
    tp2_price := some 93000, tp3_price := some 92000, sl_price := some 96000,
    leverage := 20, tp1_hit := true, tp1_order_id := some "a1",
    tp2_order_id := some "a2", sl_order_id := some "a3",
    unrealized_pnl := 7, mark_price := 94100 }

/-- Witness for C5 at a concrete mid-lifecycle position. -/
theorem claim_C5_witness :
    c5p.is_closed = false ∧
    (restoreKept (saveEntry c5p) = some (restoreEntry (saveEntry c5p)) ∧
     (restoreEntry (saveEntry c5p)).tp1_hit = c5p.tp1_hit ∧
     (restoreEntry (saveEntry c5p)).tp2_hit = c5p.tp2_hit ∧
     (restoreEntry (saveEntry c5p)).tp3_hit = c5p.tp3_hit ∧
     (restoreEntry (saveEntry c5p)).sl_hit = c5p.sl_hit ∧
     (restoreEntry (saveEntry c5p)).tp1_order_id = c5p.tp1_order_id ∧
     (restoreEntry (saveEntry c5p)).tp2_order_id = c5p.tp2_order_id ∧
     (restoreEntry (saveEntry c5p)).tp3_order_id = c5p.tp3_order_id ∧
     (restoreEntry (saveEntry c5p)).sl_order_id = c5p.sl_order_id ∧
     (restoreEntry (saveEntry c5p)).original_size = c5p.original_size ∧
     (restoreEntry (saveEntry c5p)).remaining_size = c5p.remaining_size) := by
  have h : c5p.is_closed = false := by
    simp [c5p, ScaledPosition.is_closed]
  exact ⟨h, claim_C5 c5p h⟩

/-! ### Claim C1 -/

/-- Claim C1: for an open position with a recorded SL order, the TP1
transition sets `tp1_hit`, sets `remaining_size` to
`round_to_lot(original_size × 0.5)`, cancels the recorded SL order and then
places a replacement SL at the *unchanged* `sl_price` sized at the new
`remaining_size`, places a TP2 order sized
`round_to_lot(remaining_size × 0.5)` at `tp2_price` (skipped when
`tp2_price` is absent), and ends by persisting; the TP2 transition sets
`tp2_hit`, sets `remaining_size` to `round_to_lot(original_size × 0.25)`,
cancels the recorded SL order and places a replacement SL at `entry_price`
(breakeven) sized at the new `remaining_size`, places a TP3 order sized at
`remaining_size` at `tp3_price` (skipped when absent), and ends by
persisting. -/
theorem claim_C1 (p q : ScaledPosition) (e f : TransEnv) (i j : String)
    (hpi : p.sl_order_id = some i) (hi : i ≠ "")
    (hps : truthyQ p.sl_price = true)
    (hqj : q.sl_order_id = some j) (hj : j ≠ "")
    (hqe : q.entry_price ≠ 0) :
    ((handle_tp1_hit e p).1.tp1_hit = true ∧
     (handle_tp1_hit e p).1.remaining_size =
       round_size_to_lot (p.original_size * (1/2)) (some e.lot_size) ∧
     (handle_tp1_hit e p).2 =
       [Action.cancelTpsl p.symbol i,
        Action.createTpsl (mkTpslRequest p.symbol p.position_side p.close_side
          (round_size_to_lot (p.original_size * (1/2)) (some e.lot_size))
          none p.sl_price)] ++
       (if truthyQ p.tp2_price then
          [Action.createTpsl (mkTpslRequest p.symbol p.position_side p.close_side
            (round_size_to_lot
              (round_size_to_lot (p.original_size * (1/2)) (some e.lot_size) * (1/2))
              (some e.lot_size))
            p.tp2_price none)]
        else []) ++ [Action.persist] ∧
     (mkTpslRequest p.symbol p.position_side p.close_side
        (round_size_to_lot (p.original_size * (1/2)) (some e.lot_size))
        none p.sl_price).slTriggerPrice = p.sl_price) ∧
    ((handle_tp2_hit f q).1.tp2_hit = true ∧
     (handle_tp2_hit f q).1.remaining_size =
       round_size_to_lot (q.original_size * (1/4)) (some f.lot_size) ∧
     (handle_tp2_hit f q).2 =
       [Action.cancelTpsl q.symbol j,
        Action.createTpsl (mkTpslRequest q.symbol q.position_side q.close_side
          (round_size_to_lot (q.original_size * (1/4)) (some f.lot_size))
          none (some q.entry_price))] ++
       (if truthyQ q.tp3_price then
          [Action.createTpsl (mkTpslRequest q.symbol q.position_side q.close_side
            (round_size_to_lot (q.original_size * (1/4)) (some f.lot_size))
            q.tp3_price none)]
        else []) ++ [Action.persist] ∧
     (mkTpslRequest q.symbol q.position_side q.close_side
        (round_size_to_lot (q.original_size * (1/4)) (some f.lot_size))
        none (some q.entry_price)).slTriggerPrice = some q.entry_price) := by
  refine ⟨⟨handle_tp1_hit_tp1_hit e p, handle_tp1_hit_remaining e p, ?_, ?_⟩,
    ⟨handle_tp2_hit_tp2_hit f q, handle_tp2_hit_remaining f q, ?_, ?_⟩⟩
  · simp only [handle_tp1_hit]
    split
    · simp_all [cancelSlActs, hpi, hi, ScaledPosition.position_side,
        ScaledPosition.close_side]
    · simp_all [cancelSlActs, hpi, hi, ScaledPosition.position_side,
        ScaledPosition.close_side]
  · simp [mkTpslRequest, hps]
  · simp only [handle_tp2_hit]
    split
    · simp_all [cancelSlActs, hqj, hj, ScaledPosition.position_side,
        ScaledPosition.close_side]
    · simp_all [cancelSlActs, hqj, hj, ScaledPosition.position_side,
        ScaledPosition.close_side]
  · simp [mkTpslRequest, truthyQ, hqe]

/-- Concrete position for the C1 witness. -/
def c1p : ScaledPosition :=
  { symbol := "BTC-USDT", side := "buy", original_size := 100,
    remaining_size := 100, entry_price := 100, tp1_price := some 101,
    tp2_price := some 102, tp3_price := some 103, sl_price := some 99,
    leverage := 20, tp1_order_id := some "t1", sl_order_id := some "s1" }

/-- Successful exchange responses for the C1 witness. -/
def c1e : TransEnv :=
  { lot_size := 1, sl_resp := Resp.resp "0" (RespData.ddict (some "s2")),
    tp_resp := Resp.resp "0" (RespData.ddict (some "t2")) }

/-- Witness for C1 at a concrete position and successful responses. -/
theorem claim_C1_witness :
    (c1p.sl_order_id = some "s1" ∧ ("s1" : String) ≠ "" ∧
     truthyQ c1p.sl_price = true ∧ c1p.entry_price ≠ 0) ∧
    (((handle_tp1_hit c1e c1p).1.tp1_hit = true ∧
      (handle_tp1_hit c1e c1p).1.remaining_size =
        round_size_to_lot (c1p.original_size * (1/2)) (some c1e.lot_size) ∧
      (handle_tp1_hit c1e c1p).2 =
        [Action.cancelTpsl c1p.symbol "s1",
         Action.createTpsl (mkTpslRequest c1p.symbol c1p.position_side c1p.close_side
           (round_size_to_lot (c1p.original_size * (1/2)) (some c1e.lot_size))
           none c1p.sl_price)] ++
        (if truthyQ c1p.tp2_price then
           [Action.createTpsl (mkTpslRequest c1p.symbol c1p.position_side c1p.close_side
             (round_size_to_lot
               (round_size_to_lot (c1p.original_size * (1/2)) (some c1e.lot_size) * (1/2))
               (some c1e.lot_size))
             c1p.tp2_price none)]
         else []) ++ [Action.persist] ∧
      (mkTpslRequest c1p.symbol c1p.position_side c1p.close_side
         (round_size_to_lot (c1p.original_size * (1/2)) (some c1e.lot_size))
         none c1p.sl_price).slTriggerPrice = c1p.sl_price) ∧
     ((handle_tp2_hit c1e c1p).1.tp2_hit = true ∧
      (handle_tp2_hit c1e c1p).1.remaining_size =
        round_size_to_lot (c1p.original_size * (1/4)) (some c1e.lot_size) ∧
      (handle_tp2_hit c1e c1p).2 =
        [Action.cancelTpsl c1p.symbol "s1",
         Action.createTpsl (mkTpslRequest c1p.symbol c1p.position_side c1p.close_side
           (round_size_to_lot (c1p.original_size * (1/4)) (some c1e.lot_size))
           none (some c1p.entry_price))] ++
        (if truthyQ c1p.tp3_price then
           [Action.createTpsl (mkTpslRequest c1p.symbol c1p.position_side c1p.close_side
             (round_size_to_lot (c1p.original_size * (1/4)) (some c1e.lot_size))
             c1p.tp3_price none)]
         else []) ++ [Action.persist] ∧
      (mkTpslRequest c1p.symbol c1p.position_side c1p.close_side
         (round_size_to_lot (c1p.original_size * (1/4)) (some c1e.lot_size))
         none (some c1p.entry_price)).slTriggerPrice = some c1p.entry_price)) := by
  have h1 : c1p.sl_order_id = some "s1" := rfl
  have h2 : ("s1" : String) ≠ "" := by simp
  have h3 : truthyQ c1p.sl_price = true := by norm_num [c1p, truthyQ]
  have h4 : c1p.entry_price ≠ 0 := by norm_num [c1p]
  exact ⟨⟨h1, h2, h3, h4⟩, claim_C1 c1p c1p c1e c1e "s1" "s1" h1 h2 h3 h1 h2 h4⟩

/-! ### Claim C8 -/

/-- Claim C8 (amended): with `original_size = 1` and `lot_size = 1`, the
initial TP1 order size collapses to the full position (1, i.e. 100%), and
on the TP1 trigger `remaining_size` becomes 0, so `is_closed` holds and the
position is treated as closed (single-shot-TP semantics) — but the handler
still attempts the further 50%-of-remaining split: when `tp2_price` is
present it places a TP2 order of size 0. -/
theorem claim_C8_amended (p : ScaledPosition) (e : TransEnv)
    (ho : p.original_size = 1) (hl : e.lot_size = 1) :
    setup_tp1_size p.original_size e.lot_size = p.original_size ∧
    (handle_tp1_hit e p).1.remaining_size = 0 ∧
    (handle_tp1_hit e p).1.is_closed = true ∧
    (truthyQ p.tp2_price = true →
      Action.createTpsl (mkTpslRequest p.symbol p.position_side p.close_side 0
        p.tp2_price none) ∈ (handle_tp1_hit e p).2) := by
  have hhalf : round_size_to_lot ((1 : ℚ) * (1/2)) (some 1) = 0 := by
    norm_num [round_size_to_lot, pyRound8, pyRoundInt]
  have hzero : round_size_to_lot ((0 : ℚ) * (1/2)) (some 1) = 0 := by
    norm_num [round_size_to_lot, pyRound8, pyRoundInt]
  have hr : (handle_tp1_hit e p).1.remaining_size = 0 := by
    rw [handle_tp1_hit_remaining, ho, hl, hhalf]
  refine ⟨?_, hr, ?_, ?_⟩
  · rw [ho, hl]
    simp only [setup_tp1_size, hhalf]
    norm_num
  · simp only [ScaledPosition.is_closed, hr]
    norm_num
  · intro htp2
    simp only [handle_tp1_hit]
    split
    · simp only [List.mem_append, List.mem_cons]
      refine Or.inr (Or.inr (Or.inl ?_))
      simp [ho, hl, ScaledPosition.position_side, ScaledPosition.close_side]
      norm_num [round_size_to_lot, pyRound8, pyRoundInt]
    · simp_all

/-- Concrete position for the C8 counterexample: one contract, lot size 1,
TP2 price present. -/
def c8p : ScaledPosition :=
  { symbol := "X", side := "buy", original_size := 1,
    remaining_size := 1, entry_price := 100, tp1_price := some 101,
    tp2_price := some 102, tp3_price := some 103, sl_price := some 99,
    leverage := 20, tp1_order_id := some "t1", sl_order_id := some "s1" }

/-- Handler environment for the C8 counterexample. -/
def c8e : TransEnv :=
  { lot_size := 1, sl_resp := Resp.noResp, tp_resp := Resp.noResp }

/-- Witness for C8 (amended) at the concrete one-contract position. -/
theorem claim_C8_amended_witness :
    (c8p.original_size = 1 ∧ c8e.lot_size = 1) ∧
    (setup_tp1_size c8p.original_size c8e.lot_size = c8p.original_size ∧
     (handle_tp1_hit c8e c8p).1.remaining_size = 0 ∧
     (handle_tp1_hit c8e c8p).1.is_closed = true ∧
     (truthyQ c8p.tp2_price = true →
       Action.createTpsl (mkTpslRequest c8p.symbol c8p.position_side
         c8p.close_side 0 c8p.tp2_price none) ∈ (handle_tp1_hit c8e c8p).2)) :=
  ⟨⟨rfl, rfl⟩, claim_C8_amended c8p c8e rfl rfl⟩

/-- Counterexample for C8 as stated: on the TP1 trigger with
`original_size = 1`, `lot_size = 1`, the 50%-of-remaining split rounds to 0
and is nonetheless attempted — the handler emits a TP2 placement of size 0,
so the transition is not free of the degenerate further split the claim
rules out. -/
theorem claim_C8_counterexample :
    round_size_to_lot ((handle_tp1_hit c8e c8p).1.remaining_size * (1/2))
      (some (1 : ℚ)) = 0 ∧
    Action.createTpsl (mkTpslRequest "X" "long" "sell" 0 (some 102) none) ∈
      (handle_tp1_hit c8e c8p).2 := by
  have hr : (handle_tp1_hit c8e c8p).1.remaining_size = 0 := by
    rw [handle_tp1_hit_remaining]
    norm_num [c8p, c8e, round_size_to_lot, pyRound8, pyRoundInt]
  constructor
  · rw [hr]
    norm_num [round_size_to_lot, pyRound8, pyRoundInt]
  · simp only [handle_tp1_hit]
    split
    · simp only [List.mem_append, List.mem_cons]
      refine Or.inr (Or.inr (Or.inl ?_))
      norm_num [c8p, c8e, round_size_to_lot, pyRound8, pyRoundInt, mkTpslRequest,
        truthyQ, ScaledPosition.position_side, ScaledPosition.close_side]
    · rename_i h
      exact absurd (by norm_num [c8p, truthyQ] : truthyQ c8p.tp2_price = true)
        (by simpa [c8p] using h)

/-! ### Claim C3 -/

lemma round_half_le_of_grid {orig : ℚ} (k : ℕ) (hk : k ≠ 0) (h0 : 0 ≤ orig) :
    round_size_to_lot (orig * (1/2)) (some ((k : ℚ) / 10 ^ 8)) ≤ orig := by
  have hkq : (0 : ℚ) < (k : ℚ) := by exact_mod_cast Nat.pos_of_ne_zero hk
  have hlpos : (0 : ℚ) < (k : ℚ) / 10 ^ 8 := by positivity
  rw [round_size_grid_eq_mul _ k hk]
  have harg : 0 ≤ orig * (1/2) / ((k : ℚ) / 10 ^ 8) := by positivity
  have h2 := pyRoundInt_le_two_mul harg
  calc (pyRoundInt (orig * (1/2) / ((k : ℚ) / 10 ^ 8)) : ℚ) * ((k : ℚ) / 10 ^ 8)
      ≤ (2 * (orig * (1/2) / ((k : ℚ) / 10 ^ 8))) * ((k : ℚ) / 10 ^ 8) :=
        mul_le_mul_of_nonneg_right h2 hlpos.le
    _ = orig := by
        field_simp
        ring

lemma round_quarter_le_half_of_grid {orig : ℚ} (k : ℕ) (hk : k ≠ 0)
    (h0 : 0 ≤ orig) :
    round_size_to_lot (orig * (1/4)) (some ((k : ℚ) / 10 ^ 8)) ≤
      round_size_to_lot (orig * (1/2)) (some ((k : ℚ) / 10 ^ 8)) := by
  have hkq : (0 : ℚ) < (k : ℚ) := by exact_mod_cast Nat.pos_of_ne_zero hk
  have hlpos : (0 : ℚ) < (k : ℚ) / 10 ^ 8 := by positivity
  rw [round_size_grid_eq_mul _ k hk, round_size_grid_eq_mul _ k hk]
  have hmono : pyRoundInt (orig * (1/4) / ((k : ℚ) / 10 ^ 8)) ≤
      pyRoundInt (orig * (1/2) / ((k : ℚ) / 10 ^ 8)) := by
    apply pyRoundInt_mono
    rw [div_le_div_iff_of_pos_right hlpos]
    linarith
  exact mul_le_mul_of_nonneg_right (by exact_mod_cast hmono) hlpos.le

lemma round_quarter_nonneg_of_grid {orig : ℚ} (k : ℕ) (hk : k ≠ 0)
    (h0 : 0 ≤ orig) :
    0 ≤ round_size_to_lot (orig * (1/4)) (some ((k : ℚ) / 10 ^ 8)) := by
  have hkq : (0 : ℚ) < (k : ℚ) := by exact_mod_cast Nat.pos_of_ne_zero hk
  have hlpos : (0 : ℚ) < (k : ℚ) / 10 ^ 8 := by positivity
  rw [round_size_grid_eq_mul _ k hk]
  have harg : 0 ≤ orig * (1/4) / ((k : ℚ) / 10 ^ 8) := by positivity
  have := pyRoundInt_nonneg harg
  have hcast : (0 : ℚ) ≤ (pyRoundInt (orig * (1/4) / ((k : ℚ) / 10 ^ 8)) : ℚ) := by
    exact_mod_cast this
  exact mul_nonneg hcast hlpos.le

/-- Claim C3 (amended): `remaining_size` is non-increasing along the
canonical transition order — TP1, then TP2, then a terminal TP3 or SL —
provided the lot size is a positive integer multiple of `10 ^ (-8)` (so the
final `round(..., 8)` cannot push the size above the previous value).  The
reconciliation loop, however, applies triggers in fetched-list order, and
an out-of-order history makes `remaining_size` increase (see the
counterexample), as does a lot size off the `10 ^ (-8)` grid. -/
theorem claim_C3_amended (p : ScaledPosition) (e1 e2 : TransEnv) (k : ℕ)
    (hk : k ≠ 0) (h0 : 0 ≤ p.original_size)
    (hrem : p.remaining_size = p.original_size)
    (hl1 : e1.lot_size = (k : ℚ) / 10 ^ 8)
    (hl2 : e2.lot_size = (k : ℚ) / 10 ^ 8) :
    (handle_tp1_hit e1 p).1.remaining_size ≤ p.remaining_size ∧
    (handle_tp2_hit e2 (handle_tp1_hit e1 p).1).1.remaining_size ≤
      (handle_tp1_hit e1 p).1.remaining_size ∧
    (handle_tp3_hit (handle_tp2_hit e2 (handle_tp1_hit e1 p).1).1).1.remaining_size ≤
      (handle_tp2_hit e2 (handle_tp1_hit e1 p).1).1.remaining_size ∧
    (handle_sl_hit (handle_tp2_hit e2 (handle_tp1_hit e1 p).1).1).1.remaining_size ≤
      (handle_tp2_hit e2 (handle_tp1_hit e1 p).1).1.remaining_size := by
  have hq : 0 ≤ round_size_to_lot (p.original_size * (1/4)) (some ((k : ℚ) / 10 ^ 8)) :=
    round_quarter_nonneg_of_grid k hk h0
  refine ⟨?_, ?_, ?_, ?_⟩
  · rw [handle_tp1_hit_remaining, hl1, hrem]
    exact round_half_le_of_grid k hk h0
  · rw [handle_tp2_hit_remaining, handle_tp1_hit_remaining,
      handle_tp1_hit_original, hl1, hl2]
    exact round_quarter_le_half_of_grid k hk h0
  · show (0 : ℚ) ≤ _
    rw [handle_tp2_hit_remaining, handle_tp1_hit_original, hl2]
    exact hq
  · show (0 : ℚ) ≤ _
    rw [handle_tp2_hit_remaining, handle_tp1_hit_original, hl2]
    exact hq

/-- Handler environment with lot size 1 for the C3 witness. -/
def c3e : TransEnv :=
  { lot_size := 1, sl_resp := Resp.noResp, tp_resp := Resp.noResp }

/-- Witness for C3 (amended) at `original_size = 100`, lot size 1
(`k = 10 ^ 8`). -/
theorem claim_C3_amended_witness :
    ((10 ^ 8 : ℕ) ≠ 0 ∧ (0 : ℚ) ≤ c1p.original_size ∧
     c1p.remaining_size = c1p.original_size ∧
     c3e.lot_size = ((10 ^ 8 : ℕ) : ℚ) / 10 ^ 8) ∧
    ((handle_tp1_hit c3e c1p).1.remaining_size ≤ c1p.remaining_size ∧
     (handle_tp2_hit c3e (handle_tp1_hit c3e c1p).1).1.remaining_size ≤
       (handle_tp1_hit c3e c1p).1.remaining_size ∧
     (handle_tp3_hit (handle_tp2_hit c3e (handle_tp1_hit c3e c1p).1).1).1.remaining_size ≤
       (handle_tp2_hit c3e (handle_tp1_hit c3e c1p).1).1.remaining_size ∧
     (handle_sl_hit (handle_tp2_hit c3e (handle_tp1_hit c3e c1p).1).1).1.remaining_size ≤
       (handle_tp2_hit c3e (handle_tp1_hit c3e c1p).1).1.remaining_size) := by
  have hk : (10 ^ 8 : ℕ) ≠ 0 := by norm_num
  have h0 : (0 : ℚ) ≤ c1p.original_size := by norm_num [c1p]
  have hrem : c1p.remaining_size = c1p.original_size := rfl
  have hl : c3e.lot_size = ((10 ^ 8 : ℕ) : ℚ) / 10 ^ 8 := by
    norm_num [c3e]
  exact ⟨⟨hk, h0, hrem, hl⟩, claim_C3_amended c1p c3e c3e (10 ^ 8) hk h0 hrem hl hl⟩

/-- Position for the C3 counterexample: TP1 already handled (remaining 50,
TP2 order "t2" and replacement SL "s2" live). -/
def c3p : ScaledPosition :=
  { symbol := "ETH-USDT", side := "buy", original_size := 100,
    remaining_size := 50, entry_price := 100, tp1_price := some 101,
    tp2_price := some 102, tp3_price := some 103, sl_price := some 99,
    leverage := 20, tp1_hit := true, tp1_order_id := some "t1",
    tp2_order_id := some "t2", sl_order_id := some "s2" }

/-- Scan environment (lot size 1, failing replacements) for the C3
counterexample. -/
def c3scan : ScanEnv :=
  { tp1env := { lot_size := 1, sl_resp := Resp.noResp, tp_resp := Resp.noResp },
    tp2env := { lot_size := 1, sl_resp := Resp.noResp, tp_resp := Resp.noResp } }

/-- History entry: the SL order "s2" filled (at time 200). -/
def c3slEnt : HistEntry :=
  { tpslId := some "s2", state := "filled", createTime := 200 }

/-- History entry: the TP2 order "t2" filled (at time 100, before the SL). -/
def c3tp2Ent : HistEntry :=
  { tpslId := some "t2", state := "filled", createTime := 100 }

/-- Tiny position and off-grid lot size (9e-9) for the rounding part of the
C3 counterexample: `original_size = 9.4e-9`. -/
def c3small : ScaledPosition :=
  { symbol := "PEPE-USDT", side := "buy", original_size := 47/5000000000,
    remaining_size := 47/5000000000, entry_price := 1, tp1_price := some 2,
    tp2_price := none, tp3_price := none, sl_price := none,
    leverage := 1, tp1_order_id := some "t1", sl_order_id := some "s1" }

/-- Handler environment with the off-grid lot size 9e-9. -/
def c3smallEnv : TransEnv :=
  { lot_size := 9/1000000000, sl_resp := Resp.noResp, tp_resp := Resp.noResp }

/-- Counterexample for C3 as stated: the reconciliation loop applies history
entries in fetched-list order, so when the fetch reports the SL fill before
the (earlier) TP2 fill, `remaining_size` goes 50 → 0 → 25 — it increases
from 0 to 25 between two applied transitions.  Moreover, even a canonical,
in-order TP1 transition increases `remaining_size` when the lot size is off
the `10 ^ (-8)` grid: with `original_size = 9.4e-9` and `lot_size = 9e-9`
the new remaining size is `1e-8 > 9.4e-9`. -/
theorem claim_C3_counterexample :
    (processHistory c3scan c3p [c3slEnt]).1.remaining_size = 0 ∧
    (processHistory c3scan c3p [c3slEnt, c3tp2Ent]).1.remaining_size = 25 ∧
    (handle_tp1_hit c3smallEnv c3small).1.remaining_size >
      c3small.remaining_size := by
  refine ⟨?_, ?_, ?_⟩
  · simp [processHistory, stepHistEntry, c3p, c3slEnt, c3scan, handle_sl_hit]
  · simp [processHistory, stepHistEntry, c3p, c3slEnt, c3tp2Ent, c3scan,
      handle_sl_hit, updateOrderId, truthyQ]
    norm_num [round_size_to_lot, pyRound8, pyRoundInt]
  · rw [handle_tp1_hit_remaining]
    norm_num [c3small, c3smallEnv, round_size_to_lot, pyRound8, pyRoundInt]

/-! ### Claim C4 -/

/-- A history entry in terminal state that matches the recorded TP1 order id
of a position whose `tp1_hit` flag is still false invokes the TP1 handler. -/
lemma stepHistEntry_tp1 (env : ScanEnv) (pos : ScaledPosition) (rm : Bool)
    (acts : List Action) (e : HistEntry)
    (hs : e.state = "filled" ∨ e.state = "triggered")
    (hid : e.tpslId = pos.tp1_order_id) (hhit : pos.tp1_hit = false) :
    stepHistEntry env (pos, rm, acts) e =
      ((handle_tp1_hit env.tp1env pos).1, rm,
        acts ++ (handle_tp1_hit env.tp1env pos).2) := by
  unfold stepHistEntry
  rw [if_neg, if_pos ⟨hid, hhit⟩]
  rcases hs with h | h <;> simp [h]

/-- A history entry in terminal state that matches the recorded TP2 order id
(and not the TP1 branch) of a position whose `tp2_hit` flag is still false
invokes the TP2 handler. -/
lemma stepHistEntry_tp2 (env : ScanEnv) (pos : ScaledPosition) (rm : Bool)
    (acts : List Action) (e : HistEntry)
    (hs : e.state = "filled" ∨ e.state = "triggered")
    (hn1 : ¬(e.tpslId = pos.tp1_order_id ∧ pos.tp1_hit = false))
    (hid : e.tpslId = pos.tp2_order_id) (hhit : pos.tp2_hit = false) :
    stepHistEntry env (pos, rm, acts) e =
      ((handle_tp2_hit env.tp2env pos).1, rm,
        acts ++ (handle_tp2_hit env.tp2env pos).2) := by
  unfold stepHistEntry
  rw [if_neg, if_neg hn1, if_pos ⟨hid, hhit⟩]
  rcases hs with h | h <;> simp [h]

/-- Claim C4 (amended): when one fetch reports both a TP1 and a TP2
qualifying trigger (both flags still false), the transitions are applied in
the order the entries appear in the fetched list, not in timestamp order:
with the TP1 entry first the position ends in the canonical post-TP2 state,
with the TP2 entry first the TP2 handler runs first and the TP1 handler
afterwards overwrites `remaining_size` with the larger TP1 value — so the
OPENING→AT_TP1→AT_TP2→AT_TP3 ordering is preserved only if the fetched
list is ordered oldest-first. -/
theorem claim_C4_amended (p : ScaledPosition) (env : ScanEnv) (eA eB : HistEntry)
    (hA : eA.tpslId = p.tp1_order_id) (hB : eB.tpslId = p.tp2_order_id)
    (hsA : eA.state = "filled") (hsB : eB.state = "filled")
    (h1 : p.tp1_hit = false) (h2 : p.tp2_hit = false)
    (hne : p.tp2_order_id ≠ p.tp1_order_id)
    (hpre : (handle_tp1_hit env.tp1env p).1.tp2_order_id = p.tp2_order_id) :
    (processHistory env p [eA, eB]).1 =
      (handle_tp2_hit env.tp2env (handle_tp1_hit env.tp1env p).1).1 ∧
    (processHistory env p [eB, eA]).1 =
      (handle_tp1_hit env.tp1env (handle_tp2_hit env.tp2env p).1).1 := by
  constructor
  · simp only [processHistory, List.foldl_cons, List.foldl_nil]
    rw [stepHistEntry_tp1 env p false [] eA (Or.inl hsA) hA h1]
    rw [stepHistEntry_tp2 env _ false _ eB (Or.inl hsB)
      (by simp [handle_tp1_hit_tp1_hit])
      (by rw [hpre]; exact hB)
      (by rw [handle_tp1_hit_tp2_hit]; exact h2)]
  · simp only [processHistory, List.foldl_cons, List.foldl_nil]
    rw [stepHistEntry_tp2 env p false [] eB (Or.inl hsB)
      (fun hc => hne (hB ▸ hc.1)) hB h2]
    rw [stepHistEntry_tp1 env _ false _ eA (Or.inl hsA)
      (by rw [handle_tp2_hit_tp1_order_id]; exact hA)
      (by rw [handle_tp2_hit_tp1_hit]; exact h1)]

/-- Position for the C4 witness and the TP1/TP2 double-trigger scenario:
both order ids recorded, both flags false. -/
def c4p : ScaledPosition :=
  { symbol := "ETH-USDT", side := "buy", original_size := 100,
    remaining_size := 100, entry_price := 100, tp1_price := some 101,
    tp2_price := some 102, tp3_price := some 103, sl_price := some 99,
    leverage := 20, tp1_order_id := some "t1", tp2_order_id := some "t2",
    sl_order_id := some "s1" }

/-- Scan environment for C4 (failing replacement responses, so recorded ids
survive each handler). -/
def c4scan : ScanEnv :=
  { tp1env := { lot_size := 1, sl_resp := Resp.noResp, tp_resp := Resp.noResp },
    tp2env := { lot_size := 1, sl_resp := Resp.noResp, tp_resp := Resp.noResp } }

/-- History entry: TP1 order "t1" filled at time 100 (the older trigger). -/
def c4tp1Ent : HistEntry :=
  { tpslId := some "t1", state := "filled", createTime := 100 }

/-- History entry: TP2 order "t2" filled at time 200. -/
def c4tp2Ent : HistEntry :=
  { tpslId := some "t2", state := "filled", createTime := 200 }

/-- Witness for C4 (amended) at the concrete double-trigger scenario. -/
theorem claim_C4_amended_witness :
    (c4tp1Ent.tpslId = c4p.tp1_order_id ∧ c4tp2Ent.tpslId = c4p.tp2_order_id ∧
     c4tp1Ent.state = "filled" ∧ c4tp2Ent.state = "filled" ∧
     c4p.tp1_hit = false ∧ c4p.tp2_hit = false ∧
     c4p.tp2_order_id ≠ c4p.tp1_order_id ∧
     (handle_tp1_hit c4scan.tp1env c4p).1.tp2_order_id = c4p.tp2_order_id) ∧
    ((processHistory c4scan c4p [c4tp1Ent, c4tp2Ent]).1 =
       (handle_tp2_hit c4scan.tp2env (handle_tp1_hit c4scan.tp1env c4p).1).1 ∧
     (processHistory c4scan c4p [c4tp2Ent, c4tp1Ent]).1 =
       (handle_tp1_hit c4scan.tp1env (handle_tp2_hit c4scan.tp2env c4p).1).1) := by
  have hA : c4tp1Ent.tpslId = c4p.tp1_order_id := rfl
  have hB : c4tp2Ent.tpslId = c4p.tp2_order_id := rfl
  have hne : c4p.tp2_order_id ≠ c4p.tp1_order_id := by simp [c4p]
  have hpre : (handle_tp1_hit c4scan.tp1env c4p).1.tp2_order_id =
      c4p.tp2_order_id := by
    rw [handle_tp1_hit_tp2_order_id]
    simp [updateOrderId, c4scan]
  exact ⟨⟨hA, hB, rfl, rfl, rfl, rfl, hne, hpre⟩,
    claim_C4_amended c4p c4scan c4tp1Ent c4tp2Ent hA hB rfl rfl rfl rfl hne hpre⟩

/-- Counterexample for C4 as stated: with the TP2 trigger older than the SL
trigger but the fetched list reporting the SL entry first, the code applies
the SL transition first and the TP2 transition afterwards (final
`remaining_size` 25), while time order (oldest first) would end at 0 — the
applied order follows the fetched list, not the trigger times. -/
theorem claim_C4_counterexample :
    c3tp2Ent.createTime < c3slEnt.createTime ∧
    (processHistory c3scan c3p [c3slEnt, c3tp2Ent]).1.remaining_size = 25 ∧
    (processHistory c3scan c3p [c3tp2Ent, c3slEnt]).1.remaining_size = 0 := by
  refine ⟨by norm_num [c3tp2Ent, c3slEnt], ?_, ?_⟩
  · simp [processHistory, stepHistEntry, c3p, c3slEnt, c3tp2Ent, c3scan,
      handle_sl_hit, updateOrderId, truthyQ]
    norm_num [round_size_to_lot, pyRound8, pyRoundInt]
  · simp [processHistory, stepHistEntry, c3p, c3slEnt, c3tp2Ent, c3scan,
      handle_sl_hit, updateOrderId, truthyQ]

/-! ### Claim C2 -/

/-- Unfolding of one clean monitor cycle over a cons cell. -/
lemma monitorCycle_cons (envf : String → PosEnv) (a : String)
    (b : ScaledPosition) (t : List (String × ScaledPosition)) :
    monitorCycle envf ((a, b) :: t) =
      (if b.is_closed then ([] : List (String × ScaledPosition))
       else if (processPosition (envf a) b).2 then []
       else [(a, (processPosition (envf a) b).1)]) ++ monitorCycle envf t := by
  by_cases hb : b.is_closed
  · simp [monitorCycle, hb]
  · by_cases hr : (processPosition (envf a) b).2 <;>
      simp [monitorCycle, hb, hr]

/-- Every key surviving a clean monitor cycle was a key of the input map. -/
lemma monitorCycle_keys_sub (envf : String → PosEnv) :
    ∀ (m : List (String × ScaledPosition)) {q : String},
      q ∈ (monitorCycle envf m).map Prod.fst → q ∈ m.map Prod.fst := by
  intro m
  induction m with
  | nil => simp [monitorCycle]
  | cons hd tl ih =>
      obtain ⟨a, b⟩ := hd
      intro q hq
      rw [monitorCycle_cons, List.map_append, List.mem_append] at hq
      rcases hq with hq | hq
      · rw [List.map_cons]
        by_cases hb : b.is_closed
        · simp [hb] at hq
        · by_cases hr : (processPosition (envf a) b).2
          · simp [hb, hr] at hq
          · simp [hb, hr] at hq
            simp [hq]
      · rw [List.map_cons]
        exact List.mem_cons_of_mem _ (ih hq)

/-- On a key-unique map, two entries with the same key are the same entry. -/
lemma keysNodup_entry_eq {m : List (String × ScaledPosition)}
    (hnd : (m.map Prod.fst).Nodup) {s : String} {p p' : ScaledPosition}
    (h1 : (s, p) ∈ m) (h2 : (s, p') ∈ m) : p = p' := by
  induction m with
  | nil => simp at h1
  | cons hd tl ih =>
      rw [List.map_cons, List.nodup_cons] at hnd
      rcases List.mem_cons.mp h1 with he1 | ht1 <;>
        rcases List.mem_cons.mp h2 with he2 | ht2
      · rw [← he2] at he1
        exact congrArg Prod.snd he1
      · exfalso
        apply hnd.1
        cases he1
        exact List.mem_map.mpr ⟨(s, p'), ht2, rfl⟩
      · exfalso
        apply hnd.1
        cases he2
        exact List.mem_map.mpr ⟨(s, p), ht1, rfl⟩
      · exact ih hnd.2 ht1 ht2

/-- Claim C2: `is_closed` holds exactly when `remaining_size ≤ 0`, or
`sl_hit`, or `tp3_hit`; and a position that is closed at the start of a
clean reconciliation pass is removed from the live working set (under the
dict invariant that symbols are unique keys). -/
theorem claim_C2 :
    (∀ p : ScaledPosition,
      p.is_closed = true ↔
        (p.remaining_size ≤ 0 ∨ p.sl_hit = true ∨ p.tp3_hit = true)) ∧
    (∀ (envf : String → PosEnv) (m : List (String × ScaledPosition))
       (s : String) (p : ScaledPosition),
      (m.map Prod.fst).Nodup → (s, p) ∈ m → p.is_closed = true →
      s ∉ (monitorCycle envf m).map Prod.fst) := by
  constructor
  · intro p
    simp [ScaledPosition.is_closed, Bool.or_eq_true, decide_eq_true_eq,
      or_assoc]
  · intro envf m s p hnd hmem hcl
    induction m with
    | nil => simp at hmem
    | cons hd tl ih =>
        obtain ⟨a, b⟩ := hd
        rw [List.map_cons, List.nodup_cons] at hnd
        rw [monitorCycle_cons, List.map_append, List.mem_append]
        rintro (hq | hq)
        · -- the head contributed the key, so s = a and b is not closed
          by_cases hb : b.is_closed
          · simp [hb] at hq
          · by_cases hr : (processPosition (envf a) b).2
            · simp [hb, hr] at hq
            · simp [hb, hr] at hq
              subst hq
              rcases List.mem_cons.mp hmem with he | ht
              · cases he
                exact hb hcl
              · exact hnd.1 (List.mem_map.mpr ⟨(s, p), ht, rfl⟩)
        · -- the key survived from the tail
          rcases List.mem_cons.mp hmem with he | ht
          · cases he
            exact hnd.1 (monitorCycle_keys_sub envf tl hq)
          · exact ih hnd.2 ht hq

/-- A closed position (remaining 0, TP3 hit) for the C2 witness. -/
def c2closed : ScaledPosition :=
  { symbol := "DOGE-USDT", side := "buy", original_size := 100,
    remaining_size := 0, entry_price := 1, tp1_price := some 2,
    tp2_price := some 3, tp3_price := some 4, sl_price := some (1/2),
    leverage := 5, tp1_hit := true, tp2_hit := true, tp3_hit := true,
    tp1_order_id := some "t1", tp2_order_id := some "t2",
    tp3_order_id := some "t3", sl_order_id := some "s3" }

/-- A quiet per-position environment for the C2 witness. -/
def c2env : PosEnv :=
  { histRaises := false, tpslHistory := none,
    scan := { tp1env := { lot_size := 1, sl_resp := Resp.noResp, tp_resp := Resp.noResp },
              tp2env := { lot_size := 1, sl_resp := Resp.noResp, tp_resp := Resp.noResp } },
    openPosition := none, pendingTpsl := false, closeReason := CloseReason.other }

/-- Witness for C2 at a concrete closed position in a one-entry map. -/
theorem claim_C2_witness :
    (c2closed.is_closed = true ↔
      (c2closed.remaining_size ≤ 0 ∨ c2closed.sl_hit = true ∨
        c2closed.tp3_hit = true)) ∧
    (([("DOGE-USDT", c2closed)].map Prod.fst).Nodup ∧
     ("DOGE-USDT", c2closed) ∈ [("DOGE-USDT", c2closed)] ∧
     c2closed.is_closed = true) ∧
    "DOGE-USDT" ∉
      (monitorCycle (fun _ => c2env) [("DOGE-USDT", c2closed)]).map Prod.fst := by
  have hnd : (([("DOGE-USDT", c2closed)]).map Prod.fst).Nodup := by simp
  have hmem : ("DOGE-USDT", c2closed) ∈ [("DOGE-USDT", c2closed)] := by simp
  have hcl : c2closed.is_closed = true := by
    simp [c2closed, ScaledPosition.is_closed]
  exact ⟨claim_C2.1 c2closed, ⟨hnd, hmem, hcl⟩,
    claim_C2.2 (fun _ => c2env) _ "DOGE-USDT" c2closed hnd hmem hcl⟩

/-! ### Claim C7 -/

/-- Claim C7 (amended): with no open position and no pending conditional
orders (and a quiet history), a position whose close-confirmation counter is
0 is not evicted — the counter only moves to 1; once the counter is at
least 1, a further absent cycle evicts.  But the counter is cumulative, not
consecutive: a cycle in which the position (or its conditional orders)
reappears leaves the counter unchanged rather than resetting it, so the
second absent cycle evicts even when it is not consecutive with the
first. -/
theorem claim_C7_amended (env envp : PosEnv) (p : ScaledPosition)
    (hh : env.tpslHistory = none) (hop : env.openPosition = none)
    (hpend : env.pendingTpsl = false) (hph : envp.tpslHistory = none)
    (hpo : envp.openPosition.isSome = true) :
    (p.close_check = 0 →
      processPosition env p = ({ p with close_check := 1 }, false)) ∧
    (1 ≤ p.close_check → (processPosition env p).2 = true) ∧
    (processPosition envp p).1.close_check = p.close_check := by
  obtain ⟨um, hum⟩ := Option.isSome_iff_exists.mp hpo
  refine ⟨?_, ?_, ?_⟩
  · intro h0
    simp [processPosition, hh, hop, hpend, h0]
  · intro h1
    have h2 : 2 ≤ p.close_check + 1 := by omega
    simp only [processPosition, hh, hop, hpend]
    simp only [Bool.false_eq_true, if_false, if_pos h2]
    cases env.closeReason <;> simp [handle_sl_hit, handle_tp3_hit]
  · simp [processPosition, hph, hum]

/-- An open, mid-lifecycle position for the C7 scenarios. -/
def c7p : ScaledPosition :=
  { symbol := "ADA-USDT", side := "buy", original_size := 100,
    remaining_size := 100, entry_price := 1, tp1_price := some 2,
    tp2_price := some 3, tp3_price := some 4, sl_price := some (1/2),
    leverage := 5, tp1_order_id := some "t1", sl_order_id := some "s1" }

/-- A cycle environment reporting neither an open position nor pending
conditional orders (and a quiet history). -/
def c7absent : PosEnv :=
  { histRaises := false, tpslHistory := none,
    scan := { tp1env := { lot_size := 1, sl_resp := Resp.noResp, tp_resp := Resp.noResp },
              tp2env := { lot_size := 1, sl_resp := Resp.noResp, tp_resp := Resp.noResp } },
    openPosition := none, pendingTpsl := false, closeReason := CloseReason.other }

/-- A cycle environment in which the exchange again reports the open
position. -/
def c7present : PosEnv :=
  { histRaises := false, tpslHistory := none,
    scan := { tp1env := { lot_size := 1, sl_resp := Resp.noResp, tp_resp := Resp.noResp },
              tp2env := { lot_size := 1, sl_resp := Resp.noResp, tp_resp := Resp.noResp } },
    openPosition := some (3, 2), pendingTpsl := false,
    closeReason := CloseReason.other }

/-- Witness for C7 (amended) at the concrete position and environments. -/
theorem claim_C7_amended_witness :
    (c7absent.tpslHistory = none ∧ c7absent.openPosition = none ∧
     c7absent.pendingTpsl = false ∧ c7present.tpslHistory = none ∧
     c7present.openPosition.isSome = true) ∧
    ((c7p.close_check = 0 →
       processPosition c7absent c7p = ({ c7p with close_check := 1 }, false)) ∧
     (1 ≤ c7p.close_check → (processPosition c7absent c7p).2 = true) ∧
     (processPosition c7present c7p).1.close_check = c7p.close_check) := by
  exact ⟨⟨rfl, rfl, rfl, rfl, rfl⟩,
    claim_C7_amended c7absent c7present c7p rfl rfl rfl rfl rfl⟩

/-- Counterexample for C7 as stated: absent cycle (counter 1, kept), the
position reappears (counter still 1 — not reset), then a single further
absent cycle evicts — so a reappearance does not prevent the next absent
cycle from reaching the threshold; the two absent cycles need not be
consecutive. -/
theorem claim_C7_counterexample :
    (processPosition c7absent c7p).2 = false ∧
    (processPosition c7present (processPosition c7absent c7p).1).2 = false ∧
    (processPosition c7present
        (processPosition c7absent c7p).1).1.close_check = 1 ∧
    (processPosition c7absent
        (processPosition c7present
          (processPosition c7absent c7p).1).1).2 = true := by
  refine ⟨?_, ?_, ?_, ?_⟩ <;>
    simp [processPosition, c7absent, c7present, c7p]

/-! ### Claim C6 -/

/-- A cycle in which every reached position's history fetch succeeds ends
cleanly: no exception, 5-second sleep. -/
lemma runCycleGo_clean (envf : String → PosEnv) :
    ∀ (l : List (String × ScaledPosition))
      (acc : List (String × ScaledPosition × Bool)),
      (∀ sp ∈ l, sp.2.is_closed = true ∨ (envf sp.1).histRaises = false) →
      (runCycleGo envf l acc).2 = (false, 5) := by
  intro l
  induction l with
  | nil => intro acc h; rfl
  | cons hd tl ih =>
      intro acc h
      obtain ⟨s, p⟩ := hd
      by_cases hc : p.is_closed
      · rw [runCycleGo, if_pos hc]
        exact ih _ fun sp hsp => h sp (List.mem_cons_of_mem _ hsp)
      · have hr : (envf s).histRaises = false := by
          rcases h (s, p) (List.mem_cons_self _ _) with h1 | h2
          · exact absurd h1 hc
          · exact h2
        rw [runCycleGo, if_neg hc, if_neg (by simp [hr])]
        exact ih _ fun sp hsp => h sp (List.mem_cons_of_mem _ hsp)

/-- When the first raising position is reached, the cycle aborts there: the
raising position and everything after it are returned untouched, nothing is
deleted, the exception flag is set and the sleep is the 10-second
backoff. -/
lemma runCycleGo_raise (envf : String → PosEnv) :
    ∀ (pre : List (String × ScaledPosition))
      (acc : List (String × ScaledPosition × Bool))
      (s : String) (p : ScaledPosition) (suf : List (String × ScaledPosition)),
      (∀ sp ∈ pre, sp.2.is_closed = true ∨ (envf sp.1).histRaises = false) →
      (envf s).histRaises = true → p.is_closed = false →
      ∃ pre' : List (String × ScaledPosition),
        runCycleGo envf (pre ++ (s, p) :: suf) acc =
          (pre' ++ (s, p) :: suf, true, 10) ∧
        pre'.map Prod.fst = acc.reverse.map Prod.fst ++ pre.map Prod.fst := by
  intro pre
  induction pre with
  | nil =>
      intro acc s p suf hpre hs hp
      refine ⟨acc.reverse.map fun t => (t.1, t.2.1), ?_, ?_⟩
      · rw [List.nil_append, runCycleGo, if_neg (by simp [hp]), if_pos hs]
      · rw [List.map_map]
        simp
  | cons hd pre₀ ih =>
      intro acc s p suf hpre hs hp
      obtain ⟨a, b⟩ := hd
      by_cases hc : b.is_closed
      · obtain ⟨pre', h1, h2⟩ := ih ((a, b, true) :: acc) s p suf
          (fun sp hsp => hpre sp (List.mem_cons_of_mem _ hsp)) hs hp
        refine ⟨pre', ?_, ?_⟩
        · rw [List.cons_append, runCycleGo, if_pos hc]
          exact h1
        · rw [h2]
          simp
      · have hr : (envf a).histRaises = false := by
          rcases hpre (a, b) (List.mem_cons_self _ _) with h1 | h2
          · exact absurd h1 hc
          · exact h2
        obtain ⟨pre', h1, h2⟩ := ih
          ((a, (processPosition (envf a) b).1,
            (processPosition (envf a) b).2) :: acc) s p suf
          (fun sp hsp => hpre sp (List.mem_cons_of_mem _ hsp)) hs hp
        refine ⟨pre', ?_, ?_⟩
        · rw [List.cons_append, runCycleGo, if_neg hc, if_neg (by simp [hr])]
          exact h1
        · rw [h2]
          simp

/-- Claim C6 (amended): an exception raised while processing one position is
caught at cycle level and the loop survives — the cycle returns and sleeps
10 seconds instead of the clean-cycle 5 — but it aborts the processing of
the remaining positions in that cycle: the raising position and every
position after it are left untouched, and the removal sweep does not run
(the processed prefix keeps all its keys). -/
theorem claim_C6_amended :
    (∀ (envf : String → PosEnv) (m : List (String × ScaledPosition)),
      (∀ sp ∈ m, sp.2.is_closed = true ∨ (envf sp.1).histRaises = false) →
      (runCycleScaled envf m).2 = (false, 5)) ∧
    (∀ (envf : String → PosEnv) (pre suf : List (String × ScaledPosition))
       (s : String) (p : ScaledPosition),
      (∀ sp ∈ pre, sp.2.is_closed = true ∨ (envf sp.1).histRaises = false) →
      (envf s).histRaises = true → p.is_closed = false →
      ∃ pre' : List (String × ScaledPosition),
        runCycleScaled envf (pre ++ (s, p) :: suf) =
          (pre' ++ (s, p) :: suf, true, 10) ∧
        pre'.map Prod.fst = pre.map Prod.fst) := by
  constructor
  · intro envf m h
    exact runCycleGo_clean envf m [] h
  · intro envf pre suf s p hpre hs hp
    obtain ⟨pre', h1, h2⟩ := runCycleGo_raise envf pre [] s p suf hpre hs hp
    exact ⟨pre', h1, by simpa using h2⟩

/-- History entry that would report position B's TP1 as filled. -/
def c6hit : HistEntry := { tpslId := some "bT1", state := "filled", createTime := 1 }

/-- Position A (its history fetch will raise). -/
def c6pA : ScaledPosition :=
  { symbol := "AAA-USDT", side := "buy", original_size := 100,
    remaining_size := 100, entry_price := 10, tp1_price := some 11,
    tp2_price := some 12, tp3_price := some 13, sl_price := some 9,
    leverage := 5, tp1_order_id := some "aT1", sl_order_id := some "aS1" }

/-- Position B, later in the map, with a pending TP1 trigger in its
history. -/
def c6pB : ScaledPosition :=
  { symbol := "BBB-USDT", side := "buy", original_size := 100,
    remaining_size := 100, entry_price := 10, tp1_price := some 11,
    tp2_price := some 12, tp3_price := some 13, sl_price := some 9,
    leverage := 5, tp1_order_id := some "bT1", sl_order_id := some "bS1" }

/-- Shared scan environment for the C6 scenario. -/
def c6scan : ScanEnv :=
  { tp1env := { lot_size := 1, sl_resp := Resp.noResp, tp_resp := Resp.noResp },
    tp2env := { lot_size := 1, sl_resp := Resp.noResp, tp_resp := Resp.noResp } }

/-- Position A's environment: the history fetch raises. -/
def c6envA : PosEnv :=
  { histRaises := true, tpslHistory := none, scan := c6scan,
    openPosition := none, pendingTpsl := false,
    closeReason := CloseReason.other }

/-- Position B's environment: a healthy fetch reporting B's TP1 trigger and
a live position. -/
def c6envB : PosEnv :=
  { histRaises := false, tpslHistory := some [c6hit], scan := c6scan,
    openPosition := some (1, 2), pendingTpsl := false,
    closeReason := CloseReason.other }

/-- Per-symbol environments for the C6 scenario. -/
def c6envf : String → PosEnv :=
  fun s => if s = "AAA-USDT" then c6envA else c6envB

/-- Witness for C6 (amended): the clean half on the singleton map with B
alone, and the raising half with A raising ahead of B. -/
theorem claim_C6_amended_witness :
    ((∀ sp ∈ [("BBB-USDT", c6pB)],
        sp.2.is_closed = true ∨ (c6envf sp.1).histRaises = false) ∧
     (c6envf "AAA-USDT").histRaises = true ∧ c6pA.is_closed = false) ∧
    (runCycleScaled c6envf [("BBB-USDT", c6pB)]).2 = (false, 5) ∧
    (∃ pre' : List (String × ScaledPosition),
      runCycleScaled c6envf
          ([] ++ ("AAA-USDT", c6pA) :: [("BBB-USDT", c6pB)]) =
        (pre' ++ ("AAA-USDT", c6pA) :: [("BBB-USDT", c6pB)], true, 10) ∧
      pre'.map Prod.fst = ([] : List (String × ScaledPosition)).map Prod.fst) := by
  have hB : ∀ sp ∈ [("BBB-USDT", c6pB)],
      sp.2.is_closed = true ∨ (c6envf sp.1).histRaises = false := by
    intro sp hsp
    simp only [List.mem_singleton] at hsp
    subst hsp
    right
    simp [c6envf, c6envB]
  have hA : (c6envf "AAA-USDT").histRaises = true := by
    simp [c6envf, c6envA]
  have hAo : c6pA.is_closed = false := by
    simp [c6pA, ScaledPosition.is_closed]
  exact ⟨⟨hB, hA, hAo⟩, claim_C6_amended.1 c6envf _ hB,
    claim_C6_amended.2 c6envf [] [("BBB-USDT", c6pB)] "AAA-USDT" c6pA
      (by simp) hA hAo⟩

/-- Counterexample for C6 as stated: with A's history fetch raising, the
cycle returns the map completely untouched — position B, whose environment
reports a qualifying TP1 trigger, is returned with `tp1_hit` still false,
although processing it would have set `tp1_hit` — so the exception did
abort the processing of the other positions in that cycle (and the loop
slept 10 seconds rather than the clean 5). -/
theorem claim_C6_counterexample :
    runCycleScaled c6envf [("AAA-USDT", c6pA), ("BBB-USDT", c6pB)] =
      ([("AAA-USDT", c6pA), ("BBB-USDT", c6pB)], true, 10) ∧
    (processPosition c6envB c6pB).1.tp1_hit = true ∧
    c6pB.tp1_hit = false := by
  refine ⟨?_, ?_, rfl⟩
  · have hAo : ¬(c6pA.is_closed = true) := by
      simp [c6pA, ScaledPosition.is_closed]
    rw [runCycleScaled, runCycleGo, if_neg hAo,
      if_pos (by simp [c6envf, c6envA])]
    rfl
  · simp [processPosition, c6envB, processHistory, stepHistEntry, c6hit, c6pB]

end BlofinScaled
